import Mathlib

/-!
Shallow embedding of the filtering-and-aggregation query layer of the EV
dashboard repository (src/src/database.py and src/src/filters.py).

The single DuckDB table `vehicle_data` is modelled as a `List Vehicle`; SQL
NULL and pandas NaN are both modelled as `none`.  DECIMAL columns are modelled
as rationals (`Option ℚ`): the spec properties proved here are robust to the
difference between float64 and exact rational arithmetic at the stated
tolerances.  Each definition mirrors one Python function of the source and
keeps its name.
-/

/-- One row of the `vehicle_data` table created by `DuckDBManager._create_schema`
(src/src/database.py, lines 26-53), with the 22 columns in schema order.
Every column is nullable, exactly as in the SQL schema. -/
structure Vehicle where
  brand : Option String := none
  model : Option String := none
  top_speed_kmh : Option ℚ := none
  battery_capacity_kWh : Option ℚ := none
  battery_type : Option String := none
  number_of_cells : Option ℤ := none
  torque_nm : Option ℚ := none
  efficiency_wh_per_km : Option ℚ := none
  range_km : Option ℚ := none
  acceleration_0_100_s : Option ℚ := none
  fast_charging_power_kw_dc : Option ℚ := none
  fast_charge_port : Option String := none
  towing_capacity_kg : Option ℚ := none
  cargo_volume_l : Option ℚ := none
  seats : Option ℤ := none
  drivetrain : Option String := none
  segment : Option String := none
  length_mm : Option ℚ := none
  width_mm : Option ℚ := none
  height_mm : Option ℚ := none
  car_body_type : Option String := none
  source_url : Option String := none
deriving DecidableEq, Repr

/-- The filterable fields.  The spec's data model ("Filter set: a mapping from
field name (brand, segment, car_body_type) to a non-empty set of allowed
values") restricts filter keys to these three VARCHAR columns; the source
interpolates the dict keys as SQL column names. -/
inductive FilterCol where
  | brand
  | segment
  | car_body_type
deriving DecidableEq, Repr

/-- Reading the column a filter key names, as the SQL `WHERE` clause does. -/
def Vehicle.getCol (r : Vehicle) : FilterCol → Option String
  | .brand => r.brand
  | .segment => r.segment
  | .car_body_type => r.car_body_type

/-- A filter dictionary `{column: [values]}` as passed to
`query_with_filters`; dict iteration order is the list order. -/
abbrev Filters := List (FilterCol × List String)

/-- The SQL predicate built by `query_with_filters` (src/src/database.py,
lines 128-133): one `AND column IN (values)` conjunct per dict entry with a
non-empty value list (`if values:` skips empty lists).  A SQL NULL is never a
member of an `IN` list, so a row whose column is NULL fails that conjunct. -/
def matchesFilters (filters : Filters) (r : Vehicle) : Bool :=
  filters.all fun p =>
    p.2.isEmpty ||
      match r.getCol p.1 with
      | none => false
      | some v => decide (v ∈ p.2)

/-- `DuckDBManager.query_with_filters` (src/src/database.py, lines 118-135):
`SELECT * FROM vehicle_data WHERE 1=1 AND ...` returns the stored rows
satisfying every generated conjunct, in table order. -/
def query_with_filters (filters : Filters) (table : List Vehicle) : List Vehicle :=
  table.filter (matchesFilters filters)

/-- The mean of a pandas numeric series with the default `skipna=True`:
the input list holds the present (non-NaN) values of the series; the mean of
an all-NaN series is NaN (`none`). -/
def seriesMean (xs : List ℚ) : Option ℚ :=
  if xs.isEmpty then none else some (xs.sum / xs.length)

/-- `pandas.Series.round(2)` rounds half to even (numpy rounding), here on the
integer scale: the nearest integer to `q`, ties to the even integer. -/
def roundHalfEven (q : ℚ) : ℤ :=
  let n := ⌊q⌋
  let frac := q - n
  if frac < 1 / 2 then n
  else if 1 / 2 < frac then n + 1
  else if Even n then n else n + 1

/-- `Series.round(2)`: round to two decimal places, half to even. -/
def seriesRound2 (q : ℚ) : ℚ :=
  (roundHalfEven (q * 100) : ℚ) / 100

/-- `DataFrame.sort_values(key, ascending=False)`: sort by a key descending.
`na_position` is irrelevant at callers with key types that encode NaN
explicitly (see `obot`).  Tie order among equal keys is unspecified in pandas
(quicksort); this model realises one concrete order. -/
def keyDescRel {α β : Type} (f : α → β) [LinearOrder β] : α → α → Prop :=
  fun a b => f b ≤ f a

instance {α β : Type} (f : α → β) [LinearOrder β] : DecidableRel (keyDescRel f) :=
  fun a b => inferInstanceAs (Decidable (f b ≤ f a))

instance {α β : Type} (f : α → β) [LinearOrder β] : IsTotal α (keyDescRel f) :=
  ⟨fun a b => le_total (f b) (f a)⟩

instance {α β : Type} (f : α → β) [LinearOrder β] : IsTrans α (keyDescRel f) :=
  ⟨fun _ _ _ h1 h2 => le_trans h2 h1⟩

def sort_values_desc {α β : Type} (f : α → β) [LinearOrder β] (l : List α) : List α :=
  List.insertionSort (keyDescRel f) l

/-- `DataFrame.sort_values(key)` ascending. -/
def keyAscRel {α β : Type} (f : α → β) [LinearOrder β] : α → α → Prop :=
  fun a b => f a ≤ f b

instance {α β : Type} (f : α → β) [LinearOrder β] : DecidableRel (keyAscRel f) :=
  fun a b => inferInstanceAs (Decidable (f a ≤ f b))

instance {α β : Type} (f : α → β) [LinearOrder β] : IsTotal α (keyAscRel f) :=
  ⟨fun a b => le_total (f a) (f b)⟩

instance {α β : Type} (f : α → β) [LinearOrder β] : IsTrans α (keyAscRel f) :=
  ⟨fun _ _ _ h1 h2 => le_trans h1 h2⟩

def sort_values_asc {α β : Type} (f : α → β) [LinearOrder β] (l : List α) : List α :=
  List.insertionSort (keyAscRel f) l

/-- A nullable sort key where NaN sorts after every value in a descending
sort (pandas `na_position=last`): `none` is bottom. -/
def obot (x : Option ℚ) : WithBot ℚ :=
  match x with
  | none => (⊥ : WithBot ℚ)
  | some q => (q : WithBot ℚ)

/-- A nullable sort key where NaN sorts after every value in an ascending
sort (pandas `na_position=last`): `none` is top. -/
def otop (x : Option ℚ) : WithTop ℚ :=
  match x with
  | none => (⊤ : WithTop ℚ)
  | some q => (q : WithTop ℚ)

/-- `DuckDBManager.calculate_kpi_1_range_by_segment` (src/src/database.py,
lines 137-156).  `df.groupby('segment')` forms one group per distinct non-NaN
segment (keys sorted ascending), `['range_km'].mean()` averages the present
values of each group, and the result is sorted by average descending, NaN
averages last. -/
def calculate_kpi_1_range_by_segment (filters : Filters) (table : List Vehicle) :
    List (String × Option ℚ) :=
  let df := query_with_filters filters table
  if df.isEmpty then []
  else
    let segs := sort_values_asc id (df.filterMap Vehicle.segment).dedup
    let grouped := segs.map fun s =>
      (s, seriesMean ((df.filter fun r => decide (r.segment = some s)).filterMap Vehicle.range_km))
    sort_values_desc (fun g => obot g.2) grouped

/-- `DuckDBManager.calculate_kpi_2_acceleration_by_brand` (src/src/database.py,
lines 158-177): mean `acceleration_0_100_s` per brand, sorted ascending, NaN
last. -/
def calculate_kpi_2_acceleration_by_brand (filters : Filters) (table : List Vehicle) :
    List (String × Option ℚ) :=
  let df := query_with_filters filters table
  if df.isEmpty then []
  else
    let brands := sort_values_asc id (df.filterMap Vehicle.brand).dedup
    let grouped := brands.map fun b =>
      (b, seriesMean ((df.filter fun r => decide (r.brand = some b)).filterMap
        Vehicle.acceleration_0_100_s))
    sort_values_asc (fun g => otop g.2) grouped

/-- `DuckDBManager.calculate_kpi_3_battery_vs_efficiency` (src/src/database.py,
lines 179-196): project five columns, then `dropna()` keeps only rows where
all five projected values are present. -/
def calculate_kpi_3_battery_vs_efficiency (filters : Filters) (table : List Vehicle) :
    List (Option ℚ × Option ℚ × Option String × Option String × Option String) :=
  let df := query_with_filters filters table
  if df.isEmpty then []
  else
    (df.map fun r =>
        (r.battery_capacity_kWh, r.efficiency_wh_per_km, r.segment, r.brand, r.model)).filter
      fun t => t.1.isSome && t.2.1.isSome && t.2.2.1.isSome && t.2.2.2.1.isSome &&
        t.2.2.2.2.isSome

/-- `Series.value_counts()` on the `car_body_type` column: one entry per
distinct present value with its number of occurrences (NaN excluded), sorted
by count descending. -/
def value_counts (vals : List String) : List (String × ℕ) :=
  sort_values_desc (fun p => p.2) (vals.dedup.map fun v => (v, vals.count v))

/-- `DuckDBManager.calculate_kpi_4_distribution_by_body_type`
(src/src/database.py, lines 198-218): `value_counts` of `car_body_type`, a
percentage column `(count / count.sum() * 100).round(2)`, and a final sort by
count descending. -/
def calculate_kpi_4_distribution_by_body_type (filters : Filters) (table : List Vehicle) :
    List (String × ℕ × ℚ) :=
  let df := query_with_filters filters table
  if df.isEmpty then []
  else
    let counts := value_counts (df.filterMap Vehicle.car_body_type)
    let total : ℚ := ((counts.map fun p => p.2).sum : ℕ)
    let withPct := counts.map fun p => (p.1, p.2, seriesRound2 ((p.2 : ℚ) / total * 100))
    sort_values_desc (fun t => t.2.1) withPct

/-- `FilterManager.apply_filters` (src/src/filters.py, lines 35-51): build a
new dict keeping, in iteration order, the entries whose value list is truthy
(non-empty). -/
def apply_filters (selected_filters : List (FilterCol × List String)) :
    List (FilterCol × List String) :=
  selected_filters.foldl (fun acc p => if p.2.isEmpty then acc else acc ++ [p]) []

/-!
Column-level model of `DuckDBManager.load_csv` (src/src/database.py, lines
60-98).  Ingestion operates on a parsed CSV: a header naming the columns and
one list of cells per data row, in the column order of the file.  A cell is
`none` when the field is empty in the file (pandas NaN).  The crucial point of
this model is that `pd.read_csv` and the pandas steps address columns by NAME,
while the final `INSERT INTO vehicle_data SELECT * FROM temp_df` maps the
DataFrame columns to the table columns by POSITION.  Cell values stay strings;
`pd.to_numeric(errors=coerce)` is modelled by a parameter `parseNum` telling
which strings parse as numbers (unparsable cells become `none`), and the
engine's implicit casts at insertion are not modelled: the inputs considered
keep every value in a column of its own SQL type. -/

/-- A CSV cell: `none` is a missing value (pandas NaN). -/
abbrev Cell := Option String

/-- A parsed CSV file: the header row and the data rows, cells in file
column order. -/
structure Csv where
  header : List String
  rows : List (List Cell)
deriving DecidableEq, Repr

/-- The 22 columns of `vehicle_data` in schema order
(src/src/database.py, lines 28-53). -/
def schema_columns : List String :=
  ["brand", "model", "top_speed_kmh", "battery_capacity_kWh", "battery_type",
   "number_of_cells", "torque_nm", "efficiency_wh_per_km", "range_km",
   "acceleration_0_100_s", "fast_charging_power_kw_dc", "fast_charge_port",
   "towing_capacity_kg", "cargo_volume_l", "seats", "drivetrain", "segment",
   "length_mm", "width_mm", "height_mm", "car_body_type", "source_url"]

/-- The `numeric_columns` list of `load_csv` (src/src/database.py,
lines 73-79). -/
def numeric_columns : List String :=
  ["top_speed_kmh", "battery_capacity_kWh", "number_of_cells", "torque_nm",
   "efficiency_wh_per_km", "range_km", "acceleration_0_100_s",
   "fast_charging_power_kw_dc", "towing_capacity_kg", "cargo_volume_l",
   "seats", "length_mm", "width_mm", "height_mm"]

/-- The `dropna` subset of `load_csv` (src/src/database.py, line 88). -/
def critical_columns : List String :=
  ["brand", "model", "segment", "car_body_type"]

/-- Index of the first column of `header` named `c`, as pandas column
addressing resolves names (header names are unique in a well-formed file). -/
def colIndex (c : String) : List String → Option ℕ
  | [] => none
  | h :: t => if h = c then some 0 else (colIndex c t).map (· + 1)

/-- The cell of `row` in the column named `c`, or `none` when the header has
no such column or the row is short. -/
def cellAtD (header : List String) (row : List Cell) (c : String) : Cell :=
  match colIndex c header with
  | none => none
  | some i => row.getD i none

/-- `pd.to_numeric(col, errors=coerce)` on one cell: an unparsable value
becomes missing.  `parseNum` abstracts which strings parse as numbers. -/
def coerceCell (parseNum : String → Bool) (c : Cell) : Cell :=
  c.bind fun s => if parseNum s then some s else none

/-- The numeric-coercion loop of `load_csv` (lines 82-84), applied cellwise:
the cells of every column whose NAME is in `numeric_columns` are coerced. -/
def coerceRow (parseNum : String → Bool) : List String → List Cell → List Cell
  | h :: hs, c :: cs =>
    (if h ∈ numeric_columns then coerceCell parseNum c else c) :: coerceRow parseNum hs cs
  | _, _ => []

/-- The `dropna(subset=..., how=any)` row predicate (line 88): all four
critical columns, addressed by name, hold a present value. -/
def hasCritical (header : List String) (row : List Cell) : Bool :=
  critical_columns.all fun c => (cellAtD header row c).isSome

/-- `DuckDBManager.load_csv` (src/src/database.py, lines 60-98) acting on an
already-parsed CSV and the current table contents.  Returns `none` on a hard
error (a `dropna` `KeyError` when a critical column is absent from the header,
or the engine's binder error when `INSERT INTO vehicle_data SELECT *` is
attempted with a column count different from the schema's), and otherwise the
pair of the value `load_csv` returns (the surviving-row count) and the new
table contents: the surviving rows are appended POSITIONALLY, the i-th file
column into the i-th schema column. -/
def load_csv (parseNum : String → Bool) (csv : Csv) (table : List (List Cell)) :
    Option (ℕ × List (List Cell)) :=
  if critical_columns.all fun c => decide (c ∈ csv.header) then
    let df := csv.rows.map (coerceRow parseNum csv.header)
    let kept := df.filter (hasCritical csv.header)
    if kept.isEmpty then some (0, table)
    else if csv.header.length = schema_columns.length then some (kept.length, table ++ kept)
    else none
  else none

/-- `DuckDBManager.get_record_count` (src/src/database.py, lines 224-227):
`SELECT COUNT(*) FROM vehicle_data`. -/
def get_record_count (table : List (List Cell)) : ℕ :=
  table.length

/-- `DuckDBManager.clear_all_data` (src/src/database.py, lines 220-222):
`DELETE FROM vehicle_data`. -/
def clear_all_data (_ : List (List Cell)) : List (List Cell) :=
  []

/-- The value a stored row holds for the schema field named `c`: rows are
stored positionally, so the field named `c` is the cell at the schema index
of `c`. -/
def storedField (row : List Cell) (c : String) : Cell :=
  match colIndex c schema_columns with
  | none => none
  | some i => row.getD i none

/-!  Shared lemmas. -/

attribute [local semireducible] Rat.mul Rat.add Rat.sub Rat.inv

theorem sort_values_desc_perm {α β : Type} (f : α → β) [LinearOrder β] (l : List α) :
    (sort_values_desc f l).Perm l :=
  List.perm_insertionSort _ l

theorem sort_values_desc_sorted {α β : Type} (f : α → β) [LinearOrder β] (l : List α) :
    List.Sorted (keyDescRel f) (sort_values_desc f l) :=
  List.sorted_insertionSort _ l

theorem sort_values_asc_perm {α β : Type} (f : α → β) [LinearOrder β] (l : List α) :
    (sort_values_asc f l).Perm l :=
  List.perm_insertionSort _ l

theorem sort_values_asc_sorted {α β : Type} (f : α → β) [LinearOrder β] (l : List α) :
    List.Sorted (keyAscRel f) (sort_values_asc f l) :=
  List.sorted_insertionSort _ l

theorem map_fst_map_pair {α β : Type} (f : α → β) (l : List α) :
    (l.map fun a => (a, f a)).map Prod.fst = l := by
  induction l with
  | nil => rfl
  | cons a t ih => simp [ih]

/-- The query predicate as the spec words it: for every field present in the
filter set, the row's value is a member of that field's allowed-value set. -/
def specQueryPred (filters : Filters) (r : Vehicle) : Prop :=
  ∀ p ∈ filters, ∃ v ∈ p.2, r.getCol p.1 = some v

instance (filters : Filters) (r : Vehicle) : Decidable (specQueryPred filters r) := by
  unfold specQueryPred
  infer_instance

theorem matchesFilters_iff (filters : Filters) (r : Vehicle)
    (hne : ∀ p ∈ filters, p.2 ≠ []) :
    matchesFilters filters r = true ↔ specQueryPred filters r := by
  unfold matchesFilters specQueryPred
  rw [List.all_eq_true]
  constructor
  · intro h p hp
    have h2 := h p hp
    cases hg : r.getCol p.1 with
    | none =>
      rw [hg] at h2
      rcases Bool.or_eq_true_iff.mp h2 with h3 | h3
      · exact absurd (List.isEmpty_iff.mp h3) (hne p hp)
      · exact absurd h3 (by simp)
    | some v =>
      rw [hg] at h2
      rcases Bool.or_eq_true_iff.mp h2 with h3 | h3
      · exact absurd (List.isEmpty_iff.mp h3) (hne p hp)
      · exact ⟨v, of_decide_eq_true h3, rfl⟩
  · intro h p hp
    rcases h p hp with ⟨v, hv, hg⟩
    rw [hg]
    exact Bool.or_eq_true_iff.mpr (Or.inr (decide_eq_true hv))

/-- C2: for every stored table and every filter set (whose value lists are
non-empty, as the spec defines a filter set), `query_with_filters` returns
exactly the rows whose value, for each field present in the filter set, is a
member of that field's allowed-value set; fields absent impose no constraint,
and with an empty filter set every stored row is returned. -/
theorem query_with_filters_spec (filters : Filters) (table : List Vehicle)
    (hne : ∀ p ∈ filters, p.2 ≠ []) :
    query_with_filters filters table =
      table.filter (fun r => decide (specQueryPred filters r))
    ∧ query_with_filters [] table = table := by
  constructor
  · unfold query_with_filters
    apply List.filter_congr
    intro r _
    rw [Bool.eq_iff_iff, matchesFilters_iff filters r hne, decide_eq_true_eq]
  · simp [query_with_filters, matchesFilters]

def exTable : List Vehicle :=
  [{ brand := some "Tesla", model := some "Model 3", segment := some "C - Medium",
     car_body_type := some "Sedan" },
   { brand := some "BMW", model := some "i4", segment := some "C - Medium",
     car_body_type := some "Sedan" }]

theorem query_with_filters_spec_witness :
    query_with_filters [(FilterCol.brand, ["Tesla"])] exTable =
      exTable.filter (fun r => decide (specQueryPred [(FilterCol.brand, ["Tesla"])] r))
    ∧ query_with_filters [] exTable = exTable :=
  query_with_filters_spec [(FilterCol.brand, ["Tesla"])] exTable (by decide)

/-- C8: a filter set matching zero stored rows makes each of the four
aggregation queries return an empty result (the functions are total, so no
error is possible). -/
theorem kpis_empty_on_no_match (filters : Filters) (table : List Vehicle)
    (h : query_with_filters filters table = []) :
    calculate_kpi_1_range_by_segment filters table = []
    ∧ calculate_kpi_2_acceleration_by_brand filters table = []
    ∧ calculate_kpi_3_battery_vs_efficiency filters table = []
    ∧ calculate_kpi_4_distribution_by_body_type filters table = [] := by
  refine ⟨?_, ?_, ?_, ?_⟩
  · simp [calculate_kpi_1_range_by_segment, h]
  · simp [calculate_kpi_2_acceleration_by_brand, h]
  · simp [calculate_kpi_3_battery_vs_efficiency, h]
  · simp [calculate_kpi_4_distribution_by_body_type, h]

theorem kpis_empty_on_no_match_witness :
    query_with_filters [(FilterCol.brand, ["NonExistent"])] exTable = []
    ∧ (calculate_kpi_1_range_by_segment [(FilterCol.brand, ["NonExistent"])] exTable = []
      ∧ calculate_kpi_2_acceleration_by_brand [(FilterCol.brand, ["NonExistent"])] exTable = []
      ∧ calculate_kpi_3_battery_vs_efficiency [(FilterCol.brand, ["NonExistent"])] exTable = []
      ∧ calculate_kpi_4_distribution_by_body_type [(FilterCol.brand, ["NonExistent"])] exTable
          = []) :=
  ⟨by decide, kpis_empty_on_no_match [(FilterCol.brand, ["NonExistent"])] exTable (by decide)⟩

/-- C9: `apply_filters` returns the selection restricted to the entries whose
value list is non-empty, entry order and each retained value list preserved
as given. -/
theorem apply_filters_spec (selected_filters : List (FilterCol × List String)) :
    apply_filters selected_filters = selected_filters.filter (fun p => !p.2.isEmpty)
    ∧ ∀ (c : FilterCol) (vs : List String),
        (c, vs) ∈ apply_filters selected_filters ↔
          (c, vs) ∈ selected_filters ∧ vs ≠ [] := by
  have key : ∀ (l : List (FilterCol × List String)) (acc : List (FilterCol × List String)),
      l.foldl (fun acc p => if p.2.isEmpty then acc else acc ++ [p]) acc =
        acc ++ l.filter (fun p => !p.2.isEmpty) := by
    intro l
    induction l with
    | nil => intro acc; simp
    | cons p t ih =>
      intro acc
      rw [List.foldl_cons, List.filter_cons]
      by_cases hp : p.2.isEmpty
      · rw [if_pos hp, ih]
        simp [hp]
      · rw [if_neg hp, ih]
        simp [hp]
  have heq : apply_filters selected_filters =
      selected_filters.filter (fun p => !p.2.isEmpty) := by
    unfold apply_filters
    simpa using key selected_filters []
  refine ⟨heq, ?_⟩
  intro c vs
  rw [heq, List.mem_filter]
  simp [List.isEmpty_iff]

/-- C5: the range-by-segment query returns one row per distinct segment among
the filtered rows, pairing each segment with the mean of the present
`range_km` values of that segment's rows, sorted by that average descending
(missing averages ordered below every present one, as pandas puts NaN last). -/
theorem kpi1_spec (filters : Filters) (table : List Vehicle) :
    ((calculate_kpi_1_range_by_segment filters table).map Prod.fst).Nodup
    ∧ (∀ s : String,
        s ∈ (calculate_kpi_1_range_by_segment filters table).map Prod.fst ↔
          s ∈ (query_with_filters filters table).filterMap Vehicle.segment)
    ∧ (∀ g ∈ calculate_kpi_1_range_by_segment filters table,
        g.2 = seriesMean (((query_with_filters filters table).filter
          (fun r => decide (r.segment = some g.1))).filterMap Vehicle.range_km))
    ∧ List.Sorted (keyDescRel fun g => obot g.2)
        (calculate_kpi_1_range_by_segment filters table) := by
  by_cases hdf : (query_with_filters filters table).isEmpty
  · have hnil : query_with_filters filters table = [] := List.isEmpty_iff.mp hdf
    have h0 : calculate_kpi_1_range_by_segment filters table = [] := by
      simp [calculate_kpi_1_range_by_segment, hdf]
    rw [h0, hnil]
    simp
  · have hk : calculate_kpi_1_range_by_segment filters table =
        sort_values_desc (fun g => obot g.2)
          ((sort_values_asc id
              ((query_with_filters filters table).filterMap Vehicle.segment).dedup).map
            fun s =>
              (s, seriesMean (((query_with_filters filters table).filter
                (fun r => decide (r.segment = some s))).filterMap Vehicle.range_km))) := by
      simp [calculate_kpi_1_range_by_segment, hdf]
    rw [hk]
    set segs :=
      sort_values_asc id ((query_with_filters filters table).filterMap Vehicle.segment).dedup
      with hsegs
    set grouped := segs.map
      (fun s =>
        (s, seriesMean (((query_with_filters filters table).filter
          (fun r => decide (r.segment = some s))).filterMap Vehicle.range_km)))
      with hgrouped
    have hperm : (sort_values_desc (fun g => obot g.2) grouped).Perm grouped :=
      sort_values_desc_perm _ grouped
    have hkeys : ((sort_values_desc (fun g => obot g.2) grouped).map Prod.fst).Perm segs := by
      have h1 := hperm.map Prod.fst
      have h2 : grouped.map Prod.fst = segs := by
        rw [hgrouped, map_fst_map_pair]
      rwa [h2] at h1
    have hsegsperm :
        segs.Perm ((query_with_filters filters table).filterMap Vehicle.segment).dedup :=
      sort_values_asc_perm id _
    refine ⟨?_, ?_, ?_, ?_⟩
    · exact (hkeys.trans hsegsperm).symm.nodup
        (List.nodup_dedup ((query_with_filters filters table).filterMap Vehicle.segment))
    · intro s
      rw [(hkeys.trans hsegsperm).mem_iff, List.mem_dedup]
    · intro g hg
      have hg2 : g ∈ grouped := hperm.mem_iff.mp hg
      rw [hgrouped] at hg2
      rcases List.mem_map.mp hg2 with ⟨s, _, hs2⟩
      rw [← hs2]
    · exact sort_values_desc_sorted _ grouped

/-- C10: when some filtered row has segment `s` but every filtered row of
segment `s` has a missing `range_km`, the range-by-segment query still emits
a row for `s`, with a missing average, instead of dropping the group. -/
theorem kpi1_all_missing_group (filters : Filters) (table : List Vehicle) (s : String)
    (hmem : ∃ r ∈ query_with_filters filters table, r.segment = some s)
    (hmiss : ∀ r ∈ query_with_filters filters table,
      r.segment = some s → r.range_km = none) :
    (s, (none : Option ℚ)) ∈ calculate_kpi_1_range_by_segment filters table := by
  rcases hmem with ⟨r0, hr0, hseg0⟩
  have hdf : ¬ (query_with_filters filters table).isEmpty = true := by
    intro h
    rw [List.isEmpty_iff.mp h] at hr0
    exact absurd hr0 (List.not_mem_nil r0)
  have hk : calculate_kpi_1_range_by_segment filters table =
      sort_values_desc (fun g => obot g.2)
        ((sort_values_asc id
            ((query_with_filters filters table).filterMap Vehicle.segment).dedup).map
          fun s2 =>
            (s2, seriesMean (((query_with_filters filters table).filter
              (fun r => decide (r.segment = some s2))).filterMap Vehicle.range_km))) := by
    simp [calculate_kpi_1_range_by_segment, hdf]
  have hmean : seriesMean (((query_with_filters filters table).filter
      (fun r => decide (r.segment = some s))).filterMap Vehicle.range_km) = none := by
    have hnil : ((query_with_filters filters table).filter
        (fun r => decide (r.segment = some s))).filterMap Vehicle.range_km = [] := by
      rw [List.filterMap_eq_nil_iff]
      intro r hr
      rcases List.mem_filter.mp hr with ⟨hr1, hr2⟩
      exact hmiss r hr1 (of_decide_eq_true hr2)
    rw [hnil]
    rfl
  have hs : s ∈ sort_values_asc id
      ((query_with_filters filters table).filterMap Vehicle.segment).dedup := by
    rw [(sort_values_asc_perm id _).mem_iff, List.mem_dedup]
    exact List.mem_filterMap.mpr ⟨r0, hr0, hseg0⟩
  rw [hk]
  rw [(sort_values_desc_perm _ _).mem_iff]
  have : (s, (none : Option ℚ)) ∈ (sort_values_asc id
      ((query_with_filters filters table).filterMap Vehicle.segment).dedup).map
      (fun s2 => (s2, seriesMean (((query_with_filters filters table).filter
        (fun r => decide (r.segment = some s2))).filterMap Vehicle.range_km))) := by
    apply List.mem_map.mpr
    exact ⟨s, hs, by rw [hmean]⟩
  exact this

def exTableNoRange : List Vehicle :=
  [{ brand := some "Tesla", model := some "Model 3", segment := some "Z - Test",
     car_body_type := some "Sedan" }]

theorem kpi1_all_missing_group_witness :
    (∃ r ∈ query_with_filters [] exTableNoRange, r.segment = some "Z - Test")
    ∧ (∀ r ∈ query_with_filters [] exTableNoRange,
        r.segment = some "Z - Test" → r.range_km = none)
    ∧ ("Z - Test", (none : Option ℚ)) ∈ calculate_kpi_1_range_by_segment [] exTableNoRange :=
  ⟨by decide, by decide,
    kpi1_all_missing_group [] exTableNoRange "Z - Test" (by decide) (by decide)⟩

/-- C7: under the ingestion invariant (brand, model and segment present on
every stored row), the battery-vs-efficiency query is exactly the
five-column projection of the filtered rows in which both
`battery_capacity_kWh` and `efficiency_wh_per_km` are present, one output
row per such input row, with no aggregation. -/
theorem kpi3_spec (filters : Filters) (table : List Vehicle)
    (hinv : ∀ r ∈ table, r.brand.isSome ∧ r.model.isSome ∧ r.segment.isSome) :
    calculate_kpi_3_battery_vs_efficiency filters table =
      ((query_with_filters filters table).filter
        (fun r => r.battery_capacity_kWh.isSome && r.efficiency_wh_per_km.isSome)).map
        fun r => (r.battery_capacity_kWh, r.efficiency_wh_per_km, r.segment,
          r.brand, r.model) := by
  by_cases hdf : (query_with_filters filters table).isEmpty
  · have hnil : query_with_filters filters table = [] := List.isEmpty_iff.mp hdf
    simp [calculate_kpi_3_battery_vs_efficiency, hdf, hnil]
  · have hk : calculate_kpi_3_battery_vs_efficiency filters table =
        ((query_with_filters filters table).map fun r =>
          (r.battery_capacity_kWh, r.efficiency_wh_per_km, r.segment, r.brand,
            r.model)).filter
          fun t => t.1.isSome && t.2.1.isSome && t.2.2.1.isSome && t.2.2.2.1.isSome &&
            t.2.2.2.2.isSome := by
      simp [calculate_kpi_3_battery_vs_efficiency, hdf]
    rw [hk, List.filter_map]
    congr 1
    apply List.filter_congr
    intro r hr
    have hrt : r ∈ table := (List.mem_filter.mp hr).1
    rcases hinv r hrt with ⟨hb, hm, hs⟩
    simp [Function.comp, hb, hm, hs, Bool.and_comm, Bool.and_assoc, Bool.and_left_comm]

def exTableFull : List Vehicle :=
  [{ brand := some "Tesla", model := some "Model 3", segment := some "C - Medium",
     car_body_type := some "Sedan", battery_capacity_kWh := some 75,
     efficiency_wh_per_km := some 150, range_km := some 500 },
   { brand := some "BMW", model := some "i4", segment := some "C - Medium",
     car_body_type := some "Sedan", battery_capacity_kWh := some (163 / 2) }]

theorem kpi3_spec_witness :
    (∀ r ∈ exTableFull, r.brand.isSome ∧ r.model.isSome ∧ r.segment.isSome)
    ∧ calculate_kpi_3_battery_vs_efficiency [] exTableFull =
      ((query_with_filters [] exTableFull).filter
        (fun r => r.battery_capacity_kWh.isSome && r.efficiency_wh_per_km.isSome)).map
        fun r => (r.battery_capacity_kWh, r.efficiency_wh_per_km, r.segment,
          r.brand, r.model) :=
  ⟨by decide, kpi3_spec [] exTableFull (by decide)⟩

theorem colIndex_spec (c : String) :
    ∀ (hs : List String) (i : ℕ), colIndex c hs = some i → i < hs.length ∧ hs.getD i "" = c := by
  intro hs
  induction hs with
  | nil => intro i h; exact absurd h (by simp [colIndex])
  | cons h t ih =>
    intro i hidx
    unfold colIndex at hidx
    by_cases hh : h = c
    · rw [if_pos hh] at hidx
      cases hidx
      exact ⟨Nat.succ_pos _, hh⟩
    · rw [if_neg hh] at hidx
      rcases Option.map_eq_some'.mp hidx with ⟨j, hj, hji⟩
      rcases ih j hj with ⟨hlt, hget⟩
      subst hji
      exact ⟨Nat.succ_lt_succ hlt, hget⟩

theorem coerceRow_getD (parseNum : String → Bool) :
    ∀ (hs : List String) (row : List Cell) (i : ℕ), i < hs.length →
      (coerceRow parseNum hs row).getD i none =
        if hs.getD i "" ∈ numeric_columns then coerceCell parseNum (row.getD i none)
        else row.getD i none := by
  intro hs
  induction hs with
  | nil => intro row i h; exact absurd h (Nat.not_lt_zero i)
  | cons h t ih =>
    intro row i hlt
    cases row with
    | nil =>
      have hco : coerceRow parseNum (h :: t) ([] : List Cell) = [] := rfl
      rw [hco]
      have hc : coerceCell parseNum ((([] : List Cell)).getD i none) = none := rfl
      rw [hc]
      simp
    | cons c cs =>
      cases i with
      | zero => simp [coerceRow]
      | succ j =>
        have hco : coerceRow parseNum (h :: t) (c :: cs) =
            (if h ∈ numeric_columns then coerceCell parseNum c else c) ::
              coerceRow parseNum t cs := rfl
        rw [hco]
        simp only [List.getD_cons_succ]
        exact ih cs j (Nat.lt_of_succ_lt_succ hlt)

theorem cellAtD_coerceRow (parseNum : String → Bool) (header : List String)
    (row : List Cell) (c : String) (hc : c ∉ numeric_columns) :
    cellAtD header (coerceRow parseNum header row) c = cellAtD header row c := by
  cases hidx : colIndex c header with
  | none =>
    unfold cellAtD
    rw [hidx]
  | some i =>
    obtain ⟨hlt, hget⟩ := colIndex_spec c header i hidx
    unfold cellAtD
    rw [hidx]
    show (coerceRow parseNum header row).getD i none = row.getD i none
    rw [coerceRow_getD parseNum header row i hlt, hget, if_neg hc]

theorem hasCritical_coerceRow (parseNum : String → Bool) (header : List String)
    (row : List Cell) :
    hasCritical header (coerceRow parseNum header row) = hasCritical header row := by
  have hnum : ∀ c ∈ critical_columns, c ∉ numeric_columns := by decide
  have h4 : ∀ c ∈ critical_columns,
      cellAtD header (coerceRow parseNum header row) c = cellAtD header row c :=
    fun c hc => cellAtD_coerceRow parseNum header row c (hnum c hc)
  unfold hasCritical
  rw [Bool.eq_iff_iff, List.all_eq_true, List.all_eq_true]
  constructor
  · intro h c hc
    rw [← h4 c hc]
    exact h c hc
  · intro h c hc
    rw [h4 c hc]
    exact h c hc

/-- C3: whenever `load_csv` returns, the returned count is exactly the number
of input rows whose brand, model, segment and car_body_type are all present
(0 included as a normal outcome), and the stored record count afterwards is
the prior count plus that number. -/
theorem load_csv_spec (parseNum : String → Bool) (csv : Csv) (table : List (List Cell))
    (n : ℕ) (t2 : List (List Cell))
    (h : load_csv parseNum csv table = some (n, t2)) :
    n = (csv.rows.filter (hasCritical csv.header)).length
    ∧ get_record_count t2 = get_record_count table + n := by
  have hkept : (csv.rows.map (coerceRow parseNum csv.header)).filter
      (hasCritical csv.header) =
      (csv.rows.filter (hasCritical csv.header)).map (coerceRow parseNum csv.header) := by
    rw [List.filter_map]
    congr 1
    apply List.filter_congr
    intro row _
    simp only [Function.comp]
    exact hasCritical_coerceRow parseNum csv.header row
  simp only [load_csv, hkept] at h
  split at h
  case isFalse => exact absurd h (by simp)
  case isTrue hcrit =>
    split at h
    case isTrue hemp =>
      have hpair : ((0 : ℕ), table) = (n, t2) := Option.some_inj.mp h
      have hn : n = 0 := (Prod.ext_iff.mp hpair).1.symm
      have ht : t2 = table := (Prod.ext_iff.mp hpair).2.symm
      have hlen : ((csv.rows.filter (hasCritical csv.header)).map
          (coerceRow parseNum csv.header)).length = 0 := by
        rw [List.isEmpty_iff.mp hemp]
        rfl
      rw [List.length_map] at hlen
      subst hn
      subst ht
      exact ⟨hlen.symm, by simp [get_record_count]⟩
    case isFalse hne =>
      split at h
      case isFalse => exact absurd h (by simp)
      case isTrue harity =>
        have hpair : (((csv.rows.filter (hasCritical csv.header)).map
            (coerceRow parseNum csv.header)).length,
            table ++ (csv.rows.filter (hasCritical csv.header)).map
              (coerceRow parseNum csv.header)) = (n, t2) := Option.some_inj.mp h
        have hn : n = ((csv.rows.filter (hasCritical csv.header)).map
            (coerceRow parseNum csv.header)).length := (Prod.ext_iff.mp hpair).1.symm
        have ht : t2 = table ++ (csv.rows.filter (hasCritical csv.header)).map
            (coerceRow parseNum csv.header) := (Prod.ext_iff.mp hpair).2.symm
        rw [List.length_map] at hn
        constructor
        · exact hn
        · rw [ht]
          simp [get_record_count, hn]

/-- A schema-ordered CSV row with the four critical cells given and every
other cell missing. -/
def mkCsvRow (b m s bt : Cell) : List Cell :=
  [b, m, none, none, none, none, none, none, none, none, none, none, none, none,
   none, none, s, none, none, none, bt, none]

def exCsv : Csv :=
  { header := schema_columns,
    rows := [mkCsvRow (some "Tesla") (some "Model 3") (some "C - Medium") (some "Sedan"),
             mkCsvRow none (some "i4") (some "C - Medium") (some "Sedan")] }

def exGoodRow : List Cell :=
  mkCsvRow (some "Tesla") (some "Model 3") (some "C - Medium") (some "Sedan")

theorem load_csv_spec_witness :
    load_csv (fun _ => false) exCsv [] = some (1, [exGoodRow])
    ∧ (1 = (exCsv.rows.filter (hasCritical exCsv.header)).length
      ∧ get_record_count [exGoodRow] = get_record_count [] + 1) :=
  ⟨by decide, load_csv_spec (fun _ => false) exCsv [] 1 [exGoodRow] (by decide)⟩

/-- A CSV whose header swaps the first two schema columns (`model` before
`brand`), both VARCHAR: a valid ingestion input by the spec ("order
insignificant"). -/
def csvSwapBrandModel : Csv :=
  { header := ["model", "brand", "top_speed_kmh", "battery_capacity_kWh", "battery_type",
      "number_of_cells", "torque_nm", "efficiency_wh_per_km", "range_km",
      "acceleration_0_100_s", "fast_charging_power_kw_dc", "fast_charge_port",
      "towing_capacity_kg", "cargo_volume_l", "seats", "drivetrain", "segment",
      "length_mm", "width_mm", "height_mm", "car_body_type", "source_url"],
    rows := [mkCsvRow (some "Model 3") (some "Tesla") (some "C - Medium") (some "Sedan")] }

def rowSwapBrandModel : List Cell :=
  mkCsvRow (some "Model 3") (some "Tesla") (some "C - Medium") (some "Sedan")

/-- C4 witnessing evaluation: with `model` and `brand` columns swapped in the
header, the load succeeds and stores the row POSITIONALLY: the value "Tesla",
which the header places under `brand`, ends up stored under the schema field
`model`, and `brand` receives "Model 3".  Header order is significant. -/
theorem load_csv_positional_insert :
    load_csv (fun _ => false) csvSwapBrandModel [] = some (1, [rowSwapBrandModel])
    ∧ cellAtD csvSwapBrandModel.header rowSwapBrandModel "brand" = some "Tesla"
    ∧ storedField rowSwapBrandModel "brand" = some "Model 3"
    ∧ storedField rowSwapBrandModel "model" = some "Tesla" := by
  decide

/-- A CSV whose header swaps `brand` (schema position 0) with `battery_type`
(schema position 4), both VARCHAR, with a row whose `battery_type` value is
missing while all four critical fields are present. -/
def csvSwapBrandBattery : Csv :=
  { header := ["battery_type", "model", "top_speed_kmh", "battery_capacity_kWh", "brand",
      "number_of_cells", "torque_nm", "efficiency_wh_per_km", "range_km",
      "acceleration_0_100_s", "fast_charging_power_kw_dc", "fast_charge_port",
      "towing_capacity_kg", "cargo_volume_l", "seats", "drivetrain", "segment",
      "length_mm", "width_mm", "height_mm", "car_body_type", "source_url"],
    rows := [[none, some "Model 3", none, none, some "Tesla", none, none, none, none,
      none, none, none, none, none, none, none, some "C - Medium", none, none, none,
      some "Sedan", none]] }

def rowSwapBrandBattery : List Cell :=
  [none, some "Model 3", none, none, some "Tesla", none, none, none, none, none, none,
   none, none, none, none, none, some "C - Medium", none, none, none, some "Sedan", none]

/-- C6 witnessing evaluation: the `dropna` check addresses `brand` by name and
passes (the row's brand value "Tesla" is present), yet the positional insert
stores the missing `battery_type` cell under the schema field `brand`: a row
with a NULL `brand` is persisted, violating the ingestion invariant. -/
theorem load_csv_stores_null_critical :
    load_csv (fun _ => false) csvSwapBrandBattery [] = some (1, [rowSwapBrandBattery])
    ∧ hasCritical csvSwapBrandBattery.header rowSwapBrandBattery = true
    ∧ storedField rowSwapBrandBattery "brand" = none := by
  decide

theorem roundHalfEven_bound (q : ℚ) : |(roundHalfEven q : ℚ) - q| ≤ 1 / 2 := by
  have h0 : (⌊q⌋ : ℚ) ≤ q := Int.floor_le q
  have h1 : q < (⌊q⌋ : ℚ) + 1 := Int.lt_floor_add_one q
  simp only [roundHalfEven]
  rw [abs_le]
  split_ifs with hf1 hf2 hf3 <;> constructor <;> push_cast <;> push_cast at hf1 <;> linarith

theorem seriesRound2_bound (q : ℚ) : |seriesRound2 q - q| ≤ 1 / 200 := by
  have h := roundHalfEven_bound (q * 100)
  unfold seriesRound2
  have h2 : (roundHalfEven (q * 100) : ℚ) / 100 - q =
      ((roundHalfEven (q * 100) : ℚ) - q * 100) / 100 := by ring
  rw [h2, abs_div]
  have h3 : |(100 : ℚ)| = 100 := by norm_num
  rw [h3]
  rw [div_le_iff₀ (by norm_num : (0 : ℚ) < 100)]
  calc |(roundHalfEven (q * 100) : ℚ) - q * 100| ≤ 1 / 2 := h
    _ = 1 / 200 * 100 := by norm_num

theorem list_abs_sum_le (l : List ℚ) : |l.sum| ≤ (l.map fun x => |x|).sum := by
  induction l with
  | nil => simp
  | cons a t ih =>
    simp only [List.sum_cons, List.map_cons]
    calc |a + t.sum| ≤ |a| + |t.sum| := abs_add a t.sum
      _ ≤ |a| + (t.map fun x => |x|).sum := by linarith

theorem list_sum_map_sub {α : Type} (f g : α → ℚ) (l : List α) :
    (l.map fun x => f x - g x).sum = (l.map f).sum - (l.map g).sum := by
  induction l with
  | nil => simp
  | cons a t ih =>
    simp only [List.map_cons, List.sum_cons, ih]
    ring

theorem list_sum_map_mul_right {α : Type} (f : α → ℚ) (c : ℚ) (l : List α) :
    (l.map fun x => f x * c).sum = (l.map f).sum * c := by
  induction l with
  | nil => simp
  | cons a t ih =>
    simp only [List.map_cons, List.sum_cons, ih]
    ring

theorem length_filterMap_of_isSome {α β : Type} (f : α → Option β) (l : List α)
    (h : ∀ x ∈ l, (f x).isSome) : (l.filterMap f).length = l.length := by
  induction l with
  | nil => rfl
  | cons a t ih =>
    rcases Option.isSome_iff_exists.mp (h a (List.mem_cons_self a t)) with ⟨b, hb⟩
    rw [List.filterMap_cons, hb]
    simp only [List.length_cons]
    rw [ih fun x hx => h x (List.mem_cons_of_mem a hx)]

/-- C1 (amended): for a non-empty filtered set whose rows all carry a body
type (the ingestion invariant), the distribution query returns one row per
distinct `car_body_type` with its row count and the percentage of the total
rounded to 2 decimals, sorted by count descending, and the sum of the
reported percentages equals 100 within ±0.005 per distinct body type
(± count of result rows × 1/200). -/
theorem kpi4_spec (filters : Filters) (table : List Vehicle)
    (hne : query_with_filters filters table ≠ [])
    (hbody : ∀ r ∈ query_with_filters filters table, r.car_body_type.isSome) :
    ((calculate_kpi_4_distribution_by_body_type filters table).map fun t => t.1).Nodup
    ∧ (∀ b : String,
        b ∈ ((calculate_kpi_4_distribution_by_body_type filters table).map fun t => t.1) ↔
          b ∈ (query_with_filters filters table).filterMap Vehicle.car_body_type)
    ∧ (∀ t ∈ calculate_kpi_4_distribution_by_body_type filters table,
        t.2.1 = ((query_with_filters filters table).filterMap Vehicle.car_body_type).count t.1
        ∧ t.2.2 = seriesRound2 ((t.2.1 : ℚ) /
            ((query_with_filters filters table).length : ℚ) * 100))
    ∧ List.Sorted (keyDescRel fun t => t.2.1)
        (calculate_kpi_4_distribution_by_body_type filters table)
    ∧ |((calculate_kpi_4_distribution_by_body_type filters table).map fun t => t.2.2).sum
        - 100| ≤
        ((calculate_kpi_4_distribution_by_body_type filters table).length : ℚ) * (1 / 200) := by
  have hdfe : ¬ (query_with_filters filters table).isEmpty = true := by
    intro h
    exact hne (List.isEmpty_iff.mp h)
  set vals := (query_with_filters filters table).filterMap Vehicle.car_body_type with hvals
  have hk : calculate_kpi_4_distribution_by_body_type filters table =
      sort_values_desc (fun t => t.2.1)
        ((value_counts vals).map
          fun p => (p.1, p.2, seriesRound2 ((p.2 : ℚ) /
            ((((value_counts vals).map fun p2 => p2.2).sum : ℕ) : ℚ) * 100))) := by
    simp [calculate_kpi_4_distribution_by_body_type, hdfe, hvals]
  have hcperm : (value_counts vals).Perm (vals.dedup.map fun v => (v, vals.count v)) := by
    unfold value_counts
    exact sort_values_desc_perm _ _
  have hsum_counts : ((value_counts vals).map fun p2 => p2.2).sum = vals.length := by
    have h1 := (hcperm.map fun p2 : String × ℕ => p2.2).sum_eq
    rw [h1, List.map_map]
    exact List.sum_map_count_dedup_eq_length vals
  have hvalslen : vals.length = (query_with_filters filters table).length :=
    length_filterMap_of_isSome _ _ hbody
  have hPt : ((((value_counts vals).map fun p2 => p2.2).sum : ℕ) : ℚ) =
      ((query_with_filters filters table).length : ℚ) := by
    rw [hsum_counts, hvalslen]
  rw [hk]
  simp only [hPt]
  have hNpos : (0 : ℚ) < ((query_with_filters filters table).length : ℚ) := by
    have hlen : 0 < (query_with_filters filters table).length := List.length_pos.mpr hne
    exact_mod_cast hlen
  have hwp : ((value_counts vals).map
      (fun p => (p.1, p.2, seriesRound2 ((p.2 : ℚ) /
        ((query_with_filters filters table).length : ℚ) * 100)))).Perm
      (vals.dedup.map fun v => (v, vals.count v, seriesRound2 ((vals.count v : ℚ) /
        ((query_with_filters filters table).length : ℚ) * 100))) := by
    have h1 := hcperm.map fun p : String × ℕ =>
      (p.1, p.2, seriesRound2 ((p.2 : ℚ) /
        ((query_with_filters filters table).length : ℚ) * 100))
    rw [List.map_map] at h1
    exact h1
  have hresperm : (sort_values_desc (fun t : String × ℕ × ℚ => t.2.1)
      ((value_counts vals).map
        (fun p => (p.1, p.2, seriesRound2 ((p.2 : ℚ) /
          ((query_with_filters filters table).length : ℚ) * 100))))).Perm
      (vals.dedup.map fun v => (v, vals.count v, seriesRound2 ((vals.count v : ℚ) /
        ((query_with_filters filters table).length : ℚ) * 100))) :=
    (sort_values_desc_perm _ _).trans hwp
  have hkeys : ((sort_values_desc (fun t : String × ℕ × ℚ => t.2.1)
      ((value_counts vals).map
        (fun p => (p.1, p.2, seriesRound2 ((p.2 : ℚ) /
          ((query_with_filters filters table).length : ℚ) * 100))))).map
        fun t => t.1).Perm vals.dedup := by
    have h1 := hresperm.map fun t : String × ℕ × ℚ => t.1
    rw [List.map_map] at h1
    rw [show ((fun t : String × ℕ × ℚ => t.1) ∘ fun v =>
      (v, vals.count v, seriesRound2 ((vals.count v : ℚ) /
        ((query_with_filters filters table).length : ℚ) * 100))) = id from rfl,
      List.map_id] at h1
    exact h1
  refine ⟨?_, ?_, ?_, ?_, ?_⟩
  · exact hkeys.symm.nodup (List.nodup_dedup vals)
  · intro b
    rw [hkeys.mem_iff, List.mem_dedup]
  · intro t ht
    have ht2 := hresperm.mem_iff.mp ht
    rcases List.mem_map.mp ht2 with ⟨v, _, hveq⟩
    subst hveq
    exact ⟨rfl, rfl⟩
  · exact sort_values_desc_sorted _ _
  · have hsum : ((sort_values_desc (fun t : String × ℕ × ℚ => t.2.1)
        ((value_counts vals).map
          (fun p => (p.1, p.2, seriesRound2 ((p.2 : ℚ) /
            ((query_with_filters filters table).length : ℚ) * 100))))).map
          fun t => t.2.2).sum =
        (vals.dedup.map fun v => seriesRound2 ((vals.count v : ℚ) /
          ((query_with_filters filters table).length : ℚ) * 100)).sum := by
      rw [(hresperm.map fun t : String × ℕ × ℚ => t.2.2).sum_eq, List.map_map]
      rfl
    have hlen2 : (sort_values_desc (fun t : String × ℕ × ℚ => t.2.1)
        ((value_counts vals).map
          (fun p => (p.1, p.2, seriesRound2 ((p.2 : ℚ) /
            ((query_with_filters filters table).length : ℚ) * 100))))).length =
        vals.dedup.length := by
      rw [hresperm.length_eq, List.length_map]
    rw [hsum, hlen2]
    have hx : (vals.dedup.map fun v => (vals.count v : ℚ) /
        ((query_with_filters filters table).length : ℚ) * 100).sum = 100 := by
      have h1 : ∀ v : String, (vals.count v : ℚ) /
          ((query_with_filters filters table).length : ℚ) * 100 =
          (vals.count v : ℚ) * (100 / ((query_with_filters filters table).length : ℚ)) := by
        intro v
        ring
      simp only [h1]
      rw [list_sum_map_mul_right (fun v => (vals.count v : ℚ))
        (100 / ((query_with_filters filters table).length : ℚ))]
      have h2 : (vals.dedup.map fun v => (vals.count v : ℚ)).sum =
          (((vals.dedup.map fun v => vals.count v).sum : ℕ) : ℚ) := by
        rw [Nat.cast_list_sum, List.map_map]
        rfl
      rw [h2, List.sum_map_count_dedup_eq_length, hvalslen]
      field_simp
    have hstep1 := list_abs_sum_le (vals.dedup.map fun v =>
      seriesRound2 ((vals.count v : ℚ) /
        ((query_with_filters filters table).length : ℚ) * 100) -
      (vals.count v : ℚ) / ((query_with_filters filters table).length : ℚ) * 100)
    have hb : ∀ x ∈ ((vals.dedup.map fun v =>
        seriesRound2 ((vals.count v : ℚ) /
          ((query_with_filters filters table).length : ℚ) * 100) -
        (vals.count v : ℚ) / ((query_with_filters filters table).length : ℚ) * 100).map
          fun x => |x|), x ≤ 1 / 200 := by
      intro x hx2
      rcases List.mem_map.mp hx2 with ⟨y, hy, hxy⟩
      rcases List.mem_map.mp hy with ⟨v, _, hyv⟩
      subst hxy
      subst hyv
      exact seriesRound2_bound _
    have hstep2 := List.sum_le_card_nsmul _ (1 / 200 : ℚ) hb
    rw [List.length_map, List.length_map, nsmul_eq_mul] at hstep2
    have hfinal : |(vals.dedup.map fun v => seriesRound2 ((vals.count v : ℚ) /
        ((query_with_filters filters table).length : ℚ) * 100)).sum -
        (vals.dedup.map fun v => (vals.count v : ℚ) /
          ((query_with_filters filters table).length : ℚ) * 100).sum| ≤
        (vals.dedup.length : ℚ) * (1 / 200) := by
      rw [← list_sum_map_sub
        (fun v => seriesRound2 ((vals.count v : ℚ) /
          ((query_with_filters filters table).length : ℚ) * 100))
        (fun v => (vals.count v : ℚ) /
          ((query_with_filters filters table).length : ℚ) * 100) vals.dedup]
      exact hstep1.trans hstep2
    rw [hx] at hfinal
    exact hfinal

def exTableKpi4 : List Vehicle :=
  [{ brand := some "Tesla", model := some "Model Y", segment := some "JC - Medium",
     car_body_type := some "SUV" },
   { brand := some "Audi", model := some "e-tron", segment := some "JC - Medium",
     car_body_type := some "SUV" },
   { brand := some "Tesla", model := some "Model 3", segment := some "C - Medium",
     car_body_type := some "Sedan" }]

theorem kpi4_spec_witness :
    query_with_filters [] exTableKpi4 ≠ []
    ∧ (∀ r ∈ query_with_filters [] exTableKpi4, r.car_body_type.isSome)
    ∧ (((calculate_kpi_4_distribution_by_body_type [] exTableKpi4).map fun t => t.1).Nodup
      ∧ (∀ b : String,
          b ∈ ((calculate_kpi_4_distribution_by_body_type [] exTableKpi4).map fun t => t.1) ↔
            b ∈ (query_with_filters [] exTableKpi4).filterMap Vehicle.car_body_type)
      ∧ (∀ t ∈ calculate_kpi_4_distribution_by_body_type [] exTableKpi4,
          t.2.1 = ((query_with_filters [] exTableKpi4).filterMap Vehicle.car_body_type).count t.1
          ∧ t.2.2 = seriesRound2 ((t.2.1 : ℚ) /
              ((query_with_filters [] exTableKpi4).length : ℚ) * 100))
      ∧ List.Sorted (keyDescRel fun t => t.2.1)
          (calculate_kpi_4_distribution_by_body_type [] exTableKpi4)
      ∧ |((calculate_kpi_4_distribution_by_body_type [] exTableKpi4).map
            fun t => t.2.2).sum - 100| ≤
          ((calculate_kpi_4_distribution_by_body_type [] exTableKpi4).length : ℚ)
            * (1 / 200)) :=
  ⟨by decide, by decide, kpi4_spec [] exTableKpi4 (by decide) (by decide)⟩

/-- Six stored rows with six distinct body types: each percentage is
100/6 = 16.666…, rounded to 16.67, so the reported sum is 100.02. -/
def exTableSixBodyTypes : List Vehicle :=
  [{ brand := some "Tesla", model := some "Model 3", segment := some "C - Medium",
     car_body_type := some "Sedan" },
   { brand := some "Tesla", model := some "Model Y", segment := some "JC - Medium",
     car_body_type := some "SUV" },
   { brand := some "Renault", model := some "Zoe", segment := some "B - Small",
     car_body_type := some "Hatchback" },
   { brand := some "Porsche", model := some "Taycan", segment := some "S - Sport",
     car_body_type := some "Coupe" },
   { brand := some "Kia", model := some "PV5", segment := some "M - Van",
     car_body_type := some "Van" },
   { brand := some "Fiat", model := some "500e", segment := some "A - Mini",
     car_body_type := some "Cabriolet" }] 

/-- C1 as stated is false: on six filtered rows of six distinct body types,
the reported percentages are six times 16.67 and their sum 100.02 misses 100
by 0.02 > 0.01. -/
theorem kpi4_percentage_counterexample :
    ¬ |((calculate_kpi_4_distribution_by_body_type [] exTableSixBodyTypes).map
        fun t => t.2.2).sum - 100| ≤ 1 / 100 := by
  decide
